import Mathlib

/-!
Verification of the inventory-alerting dashboard (app.py).

The embedding below translates, from the source:
  - `CATEGORIES` and the slug lookup performed by `show_category`;
  - the GraphQL query construction of both views, modelled structurally as a
    `QuerySpec` (page size `first`, OR-joined tag filters, and whether the
    metafield projection `metafield(namespace:, key:)` is requested);
  - `process_product_edges`, the record normalizer (Python `int(...)` on the
    metafield value is modelled by `parsePyInt`, so the normalizer returns
    `Except`: an uncaught `ValueError` is an `Except.error`);
  - `show_urgent`, the global negative-stock view, as a function of the
    catalog response (transport failure = `requests` exception caught by
    `run_graphql_query` returning `None`; `apiErrors` = a response carrying an
    `errors` key; `ok edges` = the edge list extracted by the `.get` chain,
    which defaults to `[]` when nesting keys are absent); its error branch,
    whose debug print dereferences `None` on a transport failure, is modelled
    faithfully by `show_urgent_outcome`;
  - `show_category`, the per-category threshold view, as a function of the
    slug and of a fetch oracle `QuerySpec -> CatalogResult`; its result pairs
    the rendered outcome with the list of queries actually executed, so that
    "the catalog client is never invoked" is expressible;
  - Python's `sorted(..., key=lambda p: p[needed], reverse=True)` as
    `sortDesc`, a stable insertion sort into descending key order.  A stable
    sort's output is determined by sortedness plus stability, so this agrees
    with CPython's Timsort under `reverse=True` (which keeps ties in input
    order).
-/

/-- One variant edge node: only `inventoryQuantity` is projected. -/
structure RawVariant where
  inventoryQuantity : Int
deriving Repr, DecidableEq

/-- One product edge node as the queries project it: `title`,
`featuredImage { url }` (absent when the product has no featured image),
`variants(first: 1)` edge list, and the metafield value when the metafield is
present (only requested by the category query). -/
structure RawNode where
  title : String
  featuredImage : Option String
  variants : List RawVariant
  metafield : Option String
deriving Repr, DecidableEq

/-- Result of `run_graphql_query` plus the error check done by the views:
`transportFailure` models the function returning `None` after a
`requests` exception; `apiErrors` a JSON response containing an `errors`
key; `ok edges` a successful response, with `edges` the list produced by
`data.get(..., {}).get(..., {}).get(..., [])`. -/
inductive CatalogResult where
  | transportFailure
  | apiErrors
  | ok (edges : List RawNode)
deriving Repr, DecidableEq

/-- Structural model of a built GraphQL query: requested page size
(`products(first: n)`), the tag filters OR-joined into the `query` string,
and the `(namespace, key)` of the metafield projection when it is requested. -/
structure QuerySpec where
  first : Nat
  tags : List String
  metafieldRequest : Option (String × String)
deriving Repr, DecidableEq

/-- A category entry of `CATEGORIES`: Shopify tag and page title. -/
structure Category where
  tag : String
  title : String
deriving Repr, DecidableEq

/-- `CATEGORIES`: mapping of URL slugs to tags and page titles. -/
def CATEGORIES : List (String × Category) :=
  [("simple", ⟨"HJMQS", "Simple"⟩),
   ("2-button", ⟨"HJMQ2B", "2 Button"⟩),
   ("7-button", ⟨"HJMQ7B", "7 Button"⟩),
   ("quilt", ⟨"HJMQQ", "Quilt"⟩)]

/-- Python dict lookup `CATEGORIES[category_slug]`, guarded by
`category_slug not in CATEGORIES`. -/
def lookupCategory (slug : String) : Option Category :=
  (CATEGORIES.find? (fun e => e.1 == slug)).map (fun e => e.2)

/-- `all_tags = [cat["tag"] for cat in CATEGORIES.values()]`. -/
def allTags : List String := CATEGORIES.map (fun e => e.2.tag)

/-- The query built by `show_urgent`: `products(first: 250, query: "(tag OR
tag OR ...)")`, projecting id, title, featuredImage url and the first
variant's inventoryQuantity; no metafield is requested. -/
def urgentQuery : QuerySpec :=
  { first := 250, tags := allTags, metafieldRequest := none }

/-- The query built by `show_category`: `products(first: 250, query:
"tag:...")` with the same projection plus
`metafield(namespace: NS, key: KEY) { value }`. -/
def categoryQuery (tag ns key : String) : QuerySpec :=
  { first := 250, tags := [tag], metafieldRequest := some (ns, key) }

/-- ASCII whitespace as stripped by Python `int` before parsing. -/
def isSpaceChar (c : Char) : Bool :=
  c == ' ' || c == '\t' || c == '\n' || c == '\r'

/-- Strip leading and trailing whitespace from a character list. -/
def trimChars (cs : List Char) : List Char :=
  ((cs.dropWhile isSpaceChar).reverse.dropWhile isSpaceChar).reverse

/-- A nonempty all-digit character list read as a decimal number. -/
def parseDigits : List Char → Option Nat
  | [] => none
  | c :: rest =>
    if (c :: rest).all Char.isDigit then
      some ((c :: rest).foldl (fun a d => a * 10 + (d.toNat - 48)) 0)
    else none

/-- Model of Python `int(s)` on a string: optional surrounding whitespace,
optional sign, then decimal digits; `none` models the `ValueError` raised on
any other input.  (Digit-grouping underscores are not modelled.) -/
def parsePyInt (s : String) : Option Int :=
  match trimChars s.toList with
  | '-' :: rest => (parseDigits rest).map (fun n => -(n : Int))
  | '+' :: rest => (parseDigits rest).map (fun n => (n : Int))
  | cs => (parseDigits cs).map (fun n => (n : Int))

/-- `node['variants']['edges'][0]['node']['inventoryQuantity'] if
node['variants']['edges'] else 0` — the normalizer's current quantity. -/
def nodeQty (node : RawNode) : Int :=
  match node.variants with
  | [] => 0
  | v :: _ => v.inventoryQuantity

/-- The normalizer's threshold: `0` when the metafield is absent, otherwise
`int(node['metafield']['value'])`, whose `ValueError` is an error. -/
def nodeThreshold (node : RawNode) : Except String Int :=
  match node.metafield with
  | none => Except.ok 0
  | some v =>
    match parsePyInt v with
    | some t => Except.ok t
    | none => Except.error ("invalid literal for int() with base 10: " ++ v)

/-- A normalized product record as built by `process_product_edges`. -/
structure ProductRecord where
  title : String
  image_url : Option String
  current_qty : Int
  threshold : Int
deriving Repr, DecidableEq

/-- `process_product_edges`: normalizes each edge in order; an unparsable
metafield value raises, which aborts the whole call. -/
def process_product_edges : List RawNode → Except String (List ProductRecord)
  | [] => Except.ok []
  | node :: rest =>
    match nodeThreshold node with
    | Except.error e => Except.error e
    | Except.ok threshold =>
      match process_product_edges rest with
      | Except.error e => Except.error e
      | Except.ok tailRecords =>
        Except.ok ({ title := node.title, image_url := node.featuredImage,
                     current_qty := nodeQty node, threshold := threshold } :: tailRecords)

/-- A record displayed by the urgent page (no threshold field is built). -/
structure UrgentProduct where
  title : String
  image_url : Option String
  current_qty : Int
  needed_qty : Int
deriving Repr, DecidableEq

/-- A record displayed by a category page. -/
structure CategoryProduct where
  title : String
  image_url : Option String
  current_qty : Int
  threshold : Int
  needed_qty : Int
deriving Repr, DecidableEq

/-- Stable insertion into a descending-by-key list: `x` is placed before the
first element whose key is at most `key x`, so an element already in the list
with the same key stays ahead of the inserted (later-arriving) one. -/
def insertDesc (key : α → Int) (x : α) : List α → List α
  | [] => [x]
  | y :: ys => if key y ≤ key x then x :: y :: ys else y :: insertDesc key x ys

/-- Stable sort into descending key order; models Python
`sorted(l, key=key, reverse=True)` (a stable sort that keeps records with
equal keys in input order). -/
def sortDesc (key : α → Int) : List α → List α
  | [] => []
  | x :: xs => insertDesc key x (sortDesc key xs)

/-- The filtering loop of `show_urgent`: a product is appended only when its
variants list is nonempty and its first variant's quantity is negative;
`needed_qty` is `0 - current_qty`. -/
def urgentEligible (edges : List RawNode) : List UrgentProduct :=
  edges.filterMap fun node =>
    match node.variants with
    | [] => none
    | v :: _ =>
      if v.inventoryQuantity < 0 then
        some { title := node.title, image_url := node.featuredImage,
               current_qty := v.inventoryQuantity,
               needed_qty := 0 - v.inventoryQuantity }
      else none

/-- The product list `show_urgent` renders after the fetch: empty on a
connection error or an `errors` payload, otherwise the negative-inventory
records sorted by `needed_qty` descending.  The `transportFailure` arm is
idealized: the real error branch faults there before rendering anything —
see `show_urgent_outcome`, the faithful model of that branch.  The
`apiErrors` and `ok` arms are exact. -/
def show_urgent (res : CatalogResult) : List UrgentProduct :=
  match res with
  | CatalogResult.transportFailure => []
  | CatalogResult.apiErrors => []
  | CatalogResult.ok edges => sortDesc (fun p => p.needed_qty) (urgentEligible edges)

/-- Outcome of a `/` (urgent) request: a rendered page, or an uncaught
exception escaping the handler. -/
inductive UrgentOutcome where
  | page (products : List UrgentProduct)
  | fault (msg : String)
deriving Repr, DecidableEq

/-- Faithful model of `show_urgent`'s error branch: the branch body
evaluates `data.get` before rendering.  When the response carries an
`errors` key, `data` is a dict, the call succeeds (it prints the errors) and
an empty page is rendered; but when `data` is `None` after a transport
failure, the attribute lookup on `None` raises `AttributeError`, which no
handler catches — the request faults before anything is rendered. -/
def show_urgent_outcome : CatalogResult → UrgentOutcome
  | CatalogResult.transportFailure =>
      UrgentOutcome.fault "AttributeError: NoneType object has no attribute get"
  | CatalogResult.apiErrors => UrgentOutcome.page []
  | CatalogResult.ok edges =>
      UrgentOutcome.page (sortDesc (fun p => p.needed_qty) (urgentEligible edges))

/-- The `/` route: builds `urgentQuery`, executes it, renders the result.
The second component is the list of queries executed. -/
def show_urgent_route (fetch : QuerySpec → CatalogResult) :
    List UrgentProduct × List QuerySpec :=
  (show_urgent (fetch urgentQuery), [urgentQuery])

/-- The filtering loop of `show_category`: keep a normalized product exactly
when `needed_qty = threshold - current_qty` is positive. -/
def categoryEligible (prods : List ProductRecord) : List CategoryProduct :=
  prods.filterMap fun p =>
    let needed_qty := p.threshold - p.current_qty
    if needed_qty > 0 then
      some { title := p.title, image_url := p.image_url,
             current_qty := p.current_qty, threshold := p.threshold,
             needed_qty := needed_qty }
    else none

/-- Filtered category records sorted by `needed_qty` descending. -/
def categoryDisplay (prods : List ProductRecord) : List CategoryProduct :=
  sortDesc (fun p => p.needed_qty) (categoryEligible prods)

/-- Outcome of a `/<category_slug>` request: `abort(404)`, a rendered page,
or an uncaught exception escaping the handler. -/
inductive CategoryOutcome where
  | notFound
  | page (pageTitle : String) (products : List CategoryProduct)
  | fault (msg : String)
deriving Repr, DecidableEq

/-- `show_category`: 404 on an unknown slug (before any query is built);
otherwise build and run the category query, degrade to an empty page on a
transport failure or an `errors` payload, and otherwise normalize, filter
and sort.  A normalization error (unparsable metafield value) is uncaught.
The second component is the list of queries executed. -/
def show_category (ns key : String) (fetch : QuerySpec → CatalogResult)
    (slug : String) : CategoryOutcome × List QuerySpec :=
  match lookupCategory slug with
  | none => (CategoryOutcome.notFound, [])
  | some cat =>
    let spec := categoryQuery cat.tag ns key
    match fetch spec with
    | CatalogResult.transportFailure => (CategoryOutcome.page cat.title [], [spec])
    | CatalogResult.apiErrors => (CategoryOutcome.page cat.title [], [spec])
    | CatalogResult.ok edges =>
      match process_product_edges edges with
      | Except.error e => (CategoryOutcome.fault e, [spec])
      | Except.ok prods => (CategoryOutcome.page cat.title (categoryDisplay prods), [spec])

theorem mem_insertDesc (key : α → Int) (x a : α) (l : List α) :
    a ∈ insertDesc key x l ↔ a = x ∨ a ∈ l := by
  induction l with
  | nil => simp [insertDesc]
  | cons y ys ih =>
    by_cases h : key y ≤ key x
    · simp [insertDesc, h]
    · simp only [insertDesc, if_neg h, List.mem_cons, ih]
      tauto

theorem mem_sortDesc (key : α → Int) (a : α) (l : List α) :
    a ∈ sortDesc key l ↔ a ∈ l := by
  induction l with
  | nil => simp [sortDesc]
  | cons x xs ih =>
    simp [sortDesc, mem_insertDesc, ih]

theorem pairwise_insertDesc (key : α → Int) (x : α) (l : List α)
    (h : l.Pairwise (fun a b => key b ≤ key a)) :
    (insertDesc key x l).Pairwise (fun a b => key b ≤ key a) := by
  induction l with
  | nil => simp [insertDesc]
  | cons y ys ih =>
    rw [List.pairwise_cons] at h
    obtain ⟨hy, hys⟩ := h
    by_cases hxy : key y ≤ key x
    · simp only [insertDesc, if_pos hxy]
      refine List.Pairwise.cons ?_ (List.Pairwise.cons hy hys)
      intro b hb
      rcases List.mem_cons.mp hb with rfl | hb
      · exact hxy
      · exact le_trans (hy b hb) hxy
    · simp only [insertDesc, if_neg hxy]
      refine List.Pairwise.cons ?_ (ih hys)
      intro b hb
      rcases (mem_insertDesc key x b ys).mp hb with rfl | hb
      · exact le_of_lt (lt_of_not_ge hxy)
      · exact hy b hb

theorem pairwise_sortDesc (key : α → Int) (l : List α) :
    (sortDesc key l).Pairwise (fun a b => key b ≤ key a) := by
  induction l with
  | nil => simp [sortDesc]
  | cons x xs ih => exact pairwise_insertDesc key x (sortDesc key xs) ih

theorem filter_insertDesc (key : α → Int) (k : Int) (x : α) (l : List α) :
    (insertDesc key x l).filter (fun a => key a == k)
      = if key x == k then x :: l.filter (fun a => key a == k)
        else l.filter (fun a => key a == k) := by
  induction l with
  | nil =>
    simp only [insertDesc, List.filter]
    split <;> simp_all
  | cons y ys ih =>
    by_cases hxy : key y ≤ key x
    · simp only [insertDesc, if_pos hxy, List.filter_cons]
    · have hlt : key x < key y := lt_of_not_ge hxy
      simp only [insertDesc, if_neg hxy, List.filter_cons, ih]
      by_cases hyk : key y == k
      · have hxk : ¬ (key x == k) = true := by
          simp only [beq_iff_eq] at hyk ⊢
          omega
        simp [hyk, hxk]
      · by_cases hxk : (key x == k) = true <;> simp [hyk, hxk]

theorem filter_sortDesc (key : α → Int) (k : Int) (l : List α) :
    (sortDesc key l).filter (fun a => key a == k)
      = l.filter (fun a => key a == k) := by
  induction l with
  | nil => simp [sortDesc]
  | cons x xs ih =>
    simp only [sortDesc, filter_insertDesc, List.filter_cons, ih]

/-- The urgent record `show_urgent` would build for a node (its fields when
the node passes the negative-inventory check). -/
def urgentRecordOf (node : RawNode) : UrgentProduct :=
  { title := node.title, image_url := node.featuredImage,
    current_qty := nodeQty node, needed_qty := 0 - nodeQty node }

/-- The category record `show_category` would build for a normalized product
(its fields when the product passes the threshold check). -/
def categoryRecordOf (p : ProductRecord) : CategoryProduct :=
  { title := p.title, image_url := p.image_url, current_qty := p.current_qty,
    threshold := p.threshold, needed_qty := p.threshold - p.current_qty }

/-- The record `process_product_edges` builds for a node on the success path:
first variant's quantity or `0`, the image url as-is, and the parsed
metafield value or `0` when the metafield is absent. -/
def recOf (node : RawNode) : ProductRecord :=
  { title := node.title, image_url := node.featuredImage,
    current_qty := nodeQty node,
    threshold :=
      match node.metafield with
      | none => 0
      | some v => (parsePyInt v).getD 0 }

theorem urgentEligible_mem (r : UrgentProduct) (edges : List RawNode)
    (h : r ∈ urgentEligible edges) :
    r.current_qty < 0 ∧ r.needed_qty = 0 - r.current_qty := by
  rw [urgentEligible, List.mem_filterMap] at h
  obtain ⟨node, _, hn⟩ := h
  split at hn
  · simp at hn
  · split at hn
    · rename_i hneg
      simp only [Option.some.injEq] at hn
      subst hn
      exact ⟨hneg, rfl⟩
    · simp at hn

theorem urgentEligible_mem_of (node : RawNode) (edges : List RawNode)
    (hmem : node ∈ edges) (hneg : nodeQty node < 0) :
    urgentRecordOf node ∈ urgentEligible edges := by
  rw [urgentEligible, List.mem_filterMap]
  refine ⟨node, hmem, ?_⟩
  cases hv : node.variants with
  | nil => rw [nodeQty, hv] at hneg; simp at hneg
  | cons v vs =>
    have hq : nodeQty node = v.inventoryQuantity := by rw [nodeQty, hv]
    rw [hq] at hneg
    simp only [hv, if_pos hneg, Option.some.injEq, urgentRecordOf, hq]

theorem categoryEligible_mem (r : CategoryProduct) (prods : List ProductRecord)
    (h : r ∈ categoryEligible prods) :
    0 < r.needed_qty ∧ r.needed_qty = r.threshold - r.current_qty := by
  rw [categoryEligible, List.mem_filterMap] at h
  obtain ⟨p, _, hp⟩ := h
  dsimp only at hp
  split at hp
  · rename_i hpos
    simp only [Option.some.injEq] at hp
    subst hp
    exact ⟨hpos, rfl⟩
  · simp at hp

theorem categoryEligible_mem_of (p : ProductRecord) (prods : List ProductRecord)
    (hmem : p ∈ prods) (hpos : 0 < p.threshold - p.current_qty) :
    categoryRecordOf p ∈ categoryEligible prods := by
  rw [categoryEligible, List.mem_filterMap]
  refine ⟨p, hmem, ?_⟩
  dsimp only
  rw [if_pos hpos]
  rfl

theorem nodeThreshold_ok_eq (node : RawNode) (t : Int)
    (h : nodeThreshold node = Except.ok t) : (recOf node).threshold = t := by
  cases hm : node.metafield with
  | none =>
    simp only [nodeThreshold, hm, Except.ok.injEq] at h
    simp only [recOf, hm]
    exact h
  | some v =>
    cases hp : parsePyInt v with
    | none =>
      simp only [nodeThreshold, hm, hp] at h
      exact absurd h (by simp)
    | some u =>
      simp only [nodeThreshold, hm, hp, Except.ok.injEq] at h
      simp only [recOf, hm, hp, Option.getD_some]
      exact h

theorem process_ok_eq (edges : List RawNode) (prods : List ProductRecord)
    (h : process_product_edges edges = Except.ok prods) :
    prods = edges.map recOf := by
  induction edges generalizing prods with
  | nil =>
    rw [process_product_edges] at h
    simp only [Except.ok.injEq] at h
    simp [h.symm]
  | cons node rest ih =>
    rw [process_product_edges] at h
    cases hth : nodeThreshold node with
    | error e => rw [hth] at h; simp at h
    | ok t =>
      rw [hth] at h
      cases hr : process_product_edges rest with
      | error e => rw [hr] at h; simp at h
      | ok tailRecords =>
        rw [hr] at h
        simp only [Except.ok.injEq] at h
        subst h
        rw [List.map_cons, ← ih tailRecords hr]
        have ht : (recOf node).threshold = t := nodeThreshold_ok_eq node t hth
        congr 1
        rw [recOf]
        simp only [ProductRecord.mk.injEq, true_and]
        exact ht.symm

theorem process_edges_error (node : RawNode) (v : String) (edges : List RawNode)
    (h1 : node ∈ edges) (h2 : node.metafield = some v) (h3 : parsePyInt v = none) :
    ∃ e, process_product_edges edges = Except.error e := by
  induction edges with
  | nil => cases h1
  | cons hd tl ih =>
    rcases List.mem_cons.mp h1 with rfl | hmem
    · refine ⟨"invalid literal for int() with base 10: " ++ v, ?_⟩
      rw [process_product_edges]
      have : nodeThreshold node
          = Except.error ("invalid literal for int() with base 10: " ++ v) := by
        simp only [nodeThreshold, h2, h3]
      rw [this]
    · cases hth : nodeThreshold hd with
      | error e => exact ⟨e, by rw [process_product_edges, hth]⟩
      | ok t =>
        obtain ⟨e, he⟩ := ih hmem
        exact ⟨e, by rw [process_product_edges, hth, he]⟩

/-- Concrete inputs for the documented scenarios. -/
def nodeA : RawNode := { title := "A", featuredImage := none, variants := [⟨-5⟩], metafield := none }

def nodeB : RawNode := { title := "B", featuredImage := none, variants := [⟨3⟩], metafield := none }

def nodeC : RawNode := { title := "C", featuredImage := none, variants := [⟨-12⟩], metafield := none }

def nodeD : RawNode := { title := "D", featuredImage := none, variants := [⟨0⟩], metafield := none }

def urgentDemoEdges : List RawNode := [nodeA, nodeB, nodeC, nodeD]

def recA : UrgentProduct := { title := "A", image_url := none, current_qty := -5, needed_qty := 5 }

def recC : UrgentProduct := { title := "C", image_url := none, current_qty := -12, needed_qty := 12 }

def nodeX : RawNode := { title := "X", featuredImage := none, variants := [⟨-7⟩], metafield := none }

def nodeY : RawNode := { title := "Y", featuredImage := none, variants := [⟨-7⟩], metafield := none }

def recX : UrgentProduct := { title := "X", image_url := none, current_qty := -7, needed_qty := 7 }

def recY : UrgentProduct := { title := "Y", image_url := none, current_qty := -7, needed_qty := 7 }

def catNode1 : RawNode := { title := "P1", featuredImage := none, variants := [⟨4⟩], metafield := some "10" }

def catNode2 : RawNode := { title := "P2", featuredImage := none, variants := [⟨10⟩], metafield := some "10" }

def catNode3 : RawNode := { title := "P3", featuredImage := none, variants := [⟨15⟩], metafield := some "10" }

def catDemoEdges : List RawNode := [catNode1, catNode2, catNode3]

def catRec1 : CategoryProduct :=
  { title := "P1", image_url := none, current_qty := 4, threshold := 10, needed_qty := 6 }

def normDemoProds : List ProductRecord :=
  [{ title := "P1", image_url := none, current_qty := 4, threshold := 10 },
   { title := "P2", image_url := none, current_qty := 10, threshold := 10 },
   { title := "P3", image_url := none, current_qty := 15, threshold := 10 }]

def noVarNode : RawNode := { title := "E", featuredImage := none, variants := [], metafield := none }

def badNode : RawNode := { title := "Bad", featuredImage := none, variants := [⟨1⟩], metafield := some "abc" }

/-- Claim C1: in the global (urgent) view a record is included exactly when
its current quantity is strictly negative, with `neededQuantity =
-currentQuantity`; for quantities `[-5, 3, -12, 0]` (titles A,B,C,D) the
output is `[C(needed=12), A(needed=5)]` with B and D excluded. -/
theorem urgent_view_negative_stock (edges : List RawNode) :
    (∀ r ∈ show_urgent (CatalogResult.ok edges),
        r.current_qty < 0 ∧ r.needed_qty = -r.current_qty)
    ∧ (∀ node ∈ edges, nodeQty node < 0 →
        urgentRecordOf node ∈ show_urgent (CatalogResult.ok edges))
    ∧ show_urgent (CatalogResult.ok urgentDemoEdges) = [recC, recA] := by
  refine ⟨?_, ?_, by decide⟩
  · intro r hr
    simp only [show_urgent] at hr
    rw [mem_sortDesc] at hr
    have h2 := urgentEligible_mem r edges hr
    exact ⟨h2.1, by omega⟩
  · intro node hmem hneg
    simp only [show_urgent]
    rw [mem_sortDesc]
    exact urgentEligible_mem_of node edges hmem hneg

/-- Witness for C1 at a concrete input: record A of the documented scenario
is in the output and satisfies the policy equations. -/
theorem urgent_view_negative_stock_witness :
    recA.current_qty < 0 ∧ recA.needed_qty = -recA.current_qty :=
  (urgent_view_negative_stock urgentDemoEdges).1 recA (by decide)

/-- Claim C2: in the category view a normalized record is included exactly
when `threshold - currentQuantity > 0`, with `neededQuantity = threshold -
currentQuantity`; for threshold 10 and quantities `[4, 10, 15]` only the
first record (needed=6) is returned. -/
theorem category_view_threshold (prods : List ProductRecord) :
    (∀ r ∈ categoryDisplay prods,
        0 < r.needed_qty ∧ r.needed_qty = r.threshold - r.current_qty)
    ∧ (∀ p ∈ prods, 0 < p.threshold - p.current_qty →
        categoryRecordOf p ∈ categoryDisplay prods)
    ∧ (show_category "ns" "key" (fun _ => CatalogResult.ok catDemoEdges) "simple").1
        = CategoryOutcome.page "Simple" [catRec1] := by
  refine ⟨?_, ?_, by decide⟩
  · intro r hr
    rw [categoryDisplay, mem_sortDesc] at hr
    exact categoryEligible_mem r prods hr
  · intro p hmem hpos
    rw [categoryDisplay, mem_sortDesc]
    exact categoryEligible_mem_of p prods hmem hpos

/-- Witness for C2 at a concrete input: the one eligible record of the
documented scenario is in the output and satisfies the policy equations. -/
theorem category_view_threshold_witness :
    0 < catRec1.needed_qty
    ∧ catRec1.needed_qty = catRec1.threshold - catRec1.current_qty :=
  (category_view_threshold normDemoProds).1 catRec1 (by decide)

/-- Claim C3: both policies sort by `neededQuantity` descending and the sort
is stable — records with equal `neededQuantity` keep their relative arrival
order (the filter by any fixed needed value is unchanged by the sort, so no
secondary key is applied); two records both with needed 7 arriving [X, Y]
come out [X, Y]. -/
theorem ranking_sorted_stable (edges : List RawNode)
    (prods : List ProductRecord) (k : Int) :
    (show_urgent (CatalogResult.ok edges)).Pairwise
        (fun a b => b.needed_qty ≤ a.needed_qty)
    ∧ (show_urgent (CatalogResult.ok edges)).filter (fun r => r.needed_qty == k)
        = (urgentEligible edges).filter (fun r => r.needed_qty == k)
    ∧ (categoryDisplay prods).Pairwise (fun a b => b.needed_qty ≤ a.needed_qty)
    ∧ (categoryDisplay prods).filter (fun r => r.needed_qty == k)
        = (categoryEligible prods).filter (fun r => r.needed_qty == k)
    ∧ show_urgent (CatalogResult.ok [nodeX, nodeY]) = [recX, recY]
    ∧ recX.needed_qty = 7 ∧ recY.needed_qty = 7 := by
  refine ⟨?_, ?_, ?_, ?_, by decide, by decide, by decide⟩
  · exact pairwise_sortDesc (fun p => p.needed_qty) (urgentEligible edges)
  · exact filter_sortDesc (fun p => p.needed_qty) k (urgentEligible edges)
  · exact pairwise_sortDesc (fun p => p.needed_qty) (categoryEligible prods)
  · exact filter_sortDesc (fun p => p.needed_qty) k (categoryEligible prods)

/-- Claim C4 (code bug): the claim says a transport failure or an
error-bearing catalog response yields an empty rendered list and never a
fault reaching the boundary.  That holds for the category view under both
failure kinds and for the urgent view on an error-bearing response; but on a
transport failure the urgent view's error branch dereferences `None`, so an
`AttributeError` fault does reach the boundary — the first conjunct
evaluates the code at that failing input. -/
theorem urgent_transport_failure_faults (ns key slug : String) :
    show_urgent_outcome CatalogResult.transportFailure
        = UrgentOutcome.fault "AttributeError: NoneType object has no attribute get"
    ∧ show_urgent_outcome CatalogResult.apiErrors = UrgentOutcome.page []
    ∧ ((show_category ns key (fun _ => CatalogResult.transportFailure) slug).1
          = CategoryOutcome.notFound
        ∨ ∃ t, (show_category ns key (fun _ => CatalogResult.transportFailure) slug).1
          = CategoryOutcome.page t [])
    ∧ ((show_category ns key (fun _ => CatalogResult.apiErrors) slug).1
          = CategoryOutcome.notFound
        ∨ ∃ t, (show_category ns key (fun _ => CatalogResult.apiErrors) slug).1
          = CategoryOutcome.page t []) := by
  refine ⟨rfl, rfl, ?_, ?_⟩ <;>
    cases h : lookupCategory slug <;> simp [show_category, h]

/-- Claim C5: on a successful run the normalizer maps each edge, in order, to
a record whose current quantity is the first variant's quantity (0 with no
variant), whose image url is the featured image url (none when absent), and
whose threshold is the parsed metafield value (0 when the metafield is
absent); an empty edge list yields an empty output. -/
theorem normalizer_fields (edges : List RawNode) (prods : List ProductRecord)
    (h : process_product_edges edges = Except.ok prods) :
    prods = edges.map recOf
    ∧ process_product_edges [] = Except.ok ([] : List ProductRecord)
    ∧ ∀ node : RawNode,
        (recOf node).title = node.title
        ∧ (recOf node).image_url = node.featuredImage
        ∧ (node.variants = [] → (recOf node).current_qty = 0)
        ∧ (∀ v vs, node.variants = v :: vs →
            (recOf node).current_qty = v.inventoryQuantity)
        ∧ (node.metafield = none → (recOf node).threshold = 0)
        ∧ (∀ v t, node.metafield = some v → parsePyInt v = some t →
            (recOf node).threshold = t) := by
  refine ⟨process_ok_eq edges prods h, rfl, ?_⟩
  intro node
  refine ⟨rfl, rfl, ?_, ?_, ?_, ?_⟩
  · intro hv
    simp [recOf, nodeQty, hv]
  · intro v vs hv
    simp [recOf, nodeQty, hv]
  · intro hm
    simp [recOf, hm]
  · intro v t hm hp
    simp [recOf, hm, hp]

/-- Witness for C5 at a concrete input: the scenario edges normalize to the
expected records. -/
theorem normalizer_fields_witness :
    normDemoProds = catDemoEdges.map recOf :=
  (normalizer_fields catDemoEdges normDemoProds rfl).1

/-- Claim C6: an unknown category slug yields the not-found outcome and no
query is ever built or executed. -/
theorem unknown_slug_not_found (ns key : String)
    (fetch : QuerySpec → CatalogResult) (slug : String)
    (h : lookupCategory slug = none) :
    show_category ns key fetch slug = (CategoryOutcome.notFound, []) := by
  simp only [show_category, h]

/-- Witness for C6 at a concrete input: the slug "hoodie" is not registered
and 404s without a query. -/
theorem unknown_slug_not_found_witness :
    lookupCategory "hoodie" = none
    ∧ show_category "ns" "key" (fun _ => CatalogResult.apiErrors) "hoodie"
        = (CategoryOutcome.notFound, []) :=
  ⟨by decide,
   unknown_slug_not_found "ns" "key" (fun _ => CatalogResult.apiErrors) "hoodie" (by decide)⟩

/-- Claim C7: every record rendered by either policy carries a strictly
positive needed quantity. -/
theorem needed_qty_positive (edges : List RawNode) (prods : List ProductRecord)
    (r : UrgentProduct) (s : CategoryProduct) (ns key slug t : String)
    (fetch : QuerySpec → CatalogResult) (ps : List CategoryProduct) :
    (r ∈ show_urgent (CatalogResult.ok edges) → 0 < r.needed_qty)
    ∧ (s ∈ categoryDisplay prods → 0 < s.needed_qty)
    ∧ ((show_category ns key fetch slug).1 = CategoryOutcome.page t ps →
        ∀ s2 ∈ ps, 0 < s2.needed_qty) := by
  refine ⟨?_, ?_, ?_⟩
  · intro hr
    simp only [show_urgent] at hr
    rw [mem_sortDesc] at hr
    have h2 := urgentEligible_mem r edges hr
    omega
  · intro hs
    rw [categoryDisplay, mem_sortDesc] at hs
    exact (categoryEligible_mem s prods hs).1
  · intro hpage s2 hs2
    cases hl : lookupCategory slug with
    | none =>
      simp only [show_category, hl] at hpage
      exact absurd hpage (by simp)
    | some cat =>
      simp only [show_category, hl] at hpage
      cases hf : fetch (categoryQuery cat.tag ns key) with
      | transportFailure =>
        simp only [hf, CategoryOutcome.page.injEq] at hpage
        rw [← hpage.2] at hs2
        cases hs2
      | apiErrors =>
        simp only [hf, CategoryOutcome.page.injEq] at hpage
        rw [← hpage.2] at hs2
        cases hs2
      | ok edges2 =>
        simp only [hf] at hpage
        cases hpr : process_product_edges edges2 with
        | error e =>
          simp only [hpr] at hpage
          exact absurd hpage (by simp)
        | ok prods2 =>
          simp only [hpr, CategoryOutcome.page.injEq] at hpage
          rw [← hpage.2, categoryDisplay, mem_sortDesc] at hs2
          exact (categoryEligible_mem s2 prods2 hs2).1

/-- Witness for C7 at concrete inputs: the scenario records have positive
needed quantities. -/
theorem needed_qty_positive_witness :
    0 < recA.needed_qty ∧ 0 < catRec1.needed_qty :=
  ⟨(needed_qty_positive urgentDemoEdges normDemoProds recA catRec1 "ns" "key"
      "simple" "Simple" (fun _ => CatalogResult.apiErrors) []).1 (by decide),
   (needed_qty_positive urgentDemoEdges normDemoProds recA catRec1 "ns" "key"
      "simple" "Simple" (fun _ => CatalogResult.apiErrors) []).2.1 (by decide)⟩

/-- Claim C8: both queries request 250 products at most; the global query
covers the union of all registered tags and requests no metafield; the
category query covers one tag and requests the metafield by namespace and
key; these are exactly the queries the routes execute. -/
theorem query_specs_bounded (fetch : QuerySpec → CatalogResult)
    (ns key slug tag : String) (cat : Category)
    (h : lookupCategory slug = some cat) :
    (show_urgent_route fetch).2 = [urgentQuery]
    ∧ urgentQuery.first = 250
    ∧ urgentQuery.first ≤ 250
    ∧ urgentQuery.metafieldRequest = none
    ∧ urgentQuery.tags = allTags
    ∧ (categoryQuery tag ns key).first = 250
    ∧ (categoryQuery tag ns key).first ≤ 250
    ∧ (categoryQuery tag ns key).metafieldRequest = some (ns, key)
    ∧ (show_category ns key fetch slug).2 = [categoryQuery cat.tag ns key] := by
  refine ⟨rfl, rfl, by simp [urgentQuery], rfl, rfl, rfl, by simp [categoryQuery], rfl, ?_⟩
  simp only [show_category, h]
  cases hf : fetch (categoryQuery cat.tag ns key) with
  | transportFailure => simp [hf]
  | apiErrors => simp [hf]
  | ok edges =>
    simp only [hf]
    cases process_product_edges edges <;> rfl

/-- Witness for C8 at a concrete input: the "simple" category executes
exactly its category query. -/
theorem query_specs_bounded_witness :
    lookupCategory "simple" = some ⟨"HJMQS", "Simple"⟩
    ∧ (show_category "ns" "key" (fun _ => CatalogResult.apiErrors) "simple").2
        = [categoryQuery "HJMQS" "ns" "key"] :=
  ⟨by decide,
   (query_specs_bounded (fun _ => CatalogResult.apiErrors) "ns" "key" "simple"
      "HJMQS" ⟨"HJMQS", "Simple"⟩ (by decide)).2.2.2.2.2.2.2.2⟩

/-- Claim C9 (implicit): the urgent view skips a product whose variants list
is empty — prepending such a node changes nothing, so it is never normalized
to quantity 0 and never shown. -/
theorem urgent_skips_empty_variants (node : RawNode) (edges : List RawNode)
    (h : node.variants = []) :
    show_urgent (CatalogResult.ok (node :: edges))
      = show_urgent (CatalogResult.ok edges) := by
  simp only [show_urgent, urgentEligible, List.filterMap_cons, h]

/-- Witness for C9 at a concrete input: a variantless node prepended to the
scenario edges leaves the output unchanged. -/
theorem urgent_skips_empty_variants_witness :
    noVarNode.variants = []
    ∧ show_urgent (CatalogResult.ok (noVarNode :: urgentDemoEdges))
        = show_urgent (CatalogResult.ok urgentDemoEdges) :=
  ⟨by decide, urgent_skips_empty_variants noVarNode urgentDemoEdges (by decide)⟩

/-- Claim C10 (implicit): a present but unparsable metafield value makes the
category view raise (the integer-parse fault escapes) instead of defaulting
the threshold or degrading to an empty list. -/
theorem bad_metafield_raises (ns key slug v : String) (cat : Category)
    (node : RawNode) (edges : List RawNode)
    (h0 : lookupCategory slug = some cat) (h1 : node ∈ edges)
    (h2 : node.metafield = some v) (h3 : parsePyInt v = none) :
    ∃ msg, (show_category ns key (fun _ => CatalogResult.ok edges) slug).1
        = CategoryOutcome.fault msg := by
  obtain ⟨e, he⟩ := process_edges_error node v edges h1 h2 h3
  refine ⟨e, ?_⟩
  simp only [show_category, h0, he]

/-- Witness for C10 at a concrete input: the metafield value "abc" makes the
"simple" page fault. -/
theorem bad_metafield_raises_witness :
    badNode.metafield = some "abc"
    ∧ parsePyInt "abc" = none
    ∧ ∃ msg, (show_category "ns" "key" (fun _ => CatalogResult.ok [badNode]) "simple").1
        = CategoryOutcome.fault msg :=
  ⟨by decide, by decide,
   bad_metafield_raises "ns" "key" "simple" "abc" ⟨"HJMQS", "Simple"⟩ badNode [badNode]
     (by decide) (by decide) (by decide) (by decide)⟩
